import Mathlib

/-!
Verification of the checkpoint name-conversion and forward-pass
verification scripts. The Python string operations are embedded over
`List Char`: `str.startswith` as `isPrefixB`, the `in` substring test as
`containsSub`, `str.replace` (all non-overlapping occurrences, scanning
left to right) as `replaceAll`, and the regex substitution
`re.sub(r'blocks\.(\d+)', r'block_\1', name)` as `blockSub` (digits are
the ASCII digits, which is what every parameter key uses).
-/

/-- Boolean prefix test on character lists, mirroring Python `startswith`. -/
def isPrefixB : List Char → List Char → Bool
  | [], _ => true
  | _ :: _, [] => false
  | a :: ps, c :: cs => a == c && isPrefixB ps cs

/-- Boolean substring test on character lists, mirroring Python `in`. -/
def containsSub : List Char → List Char → Bool
  | p, [] => p.isEmpty
  | p, c :: cs => isPrefixB p (c :: cs) || containsSub p cs

/-- Worker for `replaceAll`. The `Nat` argument counts characters still to
be skipped because they belong to an already-replaced occurrence. At skip
state 0, if the pattern `p` matches at the current position the
replacement `r` is emitted and the remaining `p.length - 1` matched
characters are skipped; otherwise the character is kept. This is the
non-overlapping left-to-right scan of Python `str.replace`. -/
def replAux (p r : List Char) : Nat → List Char → List Char
  | skip+1, _ :: cs => replAux p r skip cs
  | _, [] => []
  | 0, c :: cs =>
    if isPrefixB p (c :: cs) then r ++ replAux p r (p.length - 1) cs
    else c :: replAux p r 0 cs

/-- Python `s.replace(p, r)` for a non-empty pattern `p`. -/
def replaceAll (p r s : List Char) : List Char := replAux p r 0 s

/-- Pattern "token_embedding." (convert_checkpoint.py line 31). -/
def tokenPat : List Char := ['t','o','k','e','n','_','e','m','b','e','d','d','i','n','g','.']

/-- Pattern "wte." (convert_checkpoint.py line 32). -/
def wtePat : List Char := ['w','t','e','.']

/-- Replacement "_tokenEmbedding." (convert_checkpoint.py lines 31-32). -/
def tokenTgt : List Char := ['_','t','o','k','e','n','E','m','b','e','d','d','i','n','g','.']

/-- Pattern "lm_head." (convert_checkpoint.py line 36). -/
def lmHeadPat : List Char := ['l','m','_','h','e','a','d','.']

/-- Replacement "_lmHead." (convert_checkpoint.py line 36). -/
def lmHeadTgt : List Char := ['_','l','m','H','e','a','d','.']

/-- The literal token "blocks." of the regex `blocks\.(\d+)`. -/
def blocksPat : List Char := ['b','l','o','c','k','s','.']

/-- The literal part "block_" of the replacement template `block_\1`. -/
def blockTgt : List Char := ['b','l','o','c','k','_']

/-- The ordered infix replacement table of convert_checkpoint.py lines
44-58: attention projections, MLP layers, and normalization layers. -/
def fragmentRules : List (List Char × List Char) :=
  [ (['.','a','t','t','n','.'], ['.','_','a','t','t','n','.'])
  , (['.','q','_','p','r','o','j','.'], ['.','_','q','P','r','o','j','.'])
  , (['.','k','_','p','r','o','j','.'], ['.','_','k','P','r','o','j','.'])
  , (['.','v','_','p','r','o','j','.'], ['.','_','v','P','r','o','j','.'])
  , (['.','o','u','t','_','p','r','o','j','.'], ['.','_','o','u','t','P','r','o','j','.'])
  , (['.','m','l','p','.'], ['.','_','m','l','p','.'])
  , (['.','f','c','1','.'], ['.','_','f','c','1','.'])
  , (['.','f','c','2','.'], ['.','_','f','c','2','.'])
  , (['.','n','o','r','m','1','.'], ['.','_','n','o','r','m','1','.'])
  , (['.','n','o','r','m','2','.'], ['.','_','n','o','r','m','2','.'])
  , (['.','f','i','n','a','l','_','n','o','r','m','.'], ['.','_','f','i','n','a','l','N','o','r','m','.']) ]

/-- The regex substitution `re.sub(r'blocks\.(\d+)', r'block_\1', name)`
(convert_checkpoint.py line 41): scan left to right; wherever the literal
token "blocks." is immediately followed by at least one digit, emit
"block_" and the (maximal) digit group, and resume after the digits. The
`Nat` argument counts characters still to be skipped from a match. -/
def blockSub : Nat → List Char → List Char
  | skip+1, _ :: cs => blockSub skip cs
  | _, [] => []
  | 0, c :: cs =>
    let ds := List.takeWhile Char.isDigit (List.drop 6 cs)
    if isPrefixB blocksPat (c :: cs) && !ds.isEmpty then
      blockTgt ++ ds ++ blockSub (6 + ds.length) cs
    else c :: blockSub 0 cs

/-- Lines 30-32 of convert_checkpoint.py: if the name starts with
"token_embedding." or "wte.", replace all occurrences of
"token_embedding." and then all occurrences of "wte." by
"_tokenEmbedding.". -/
def tokenEmbeddingStep (name : List Char) : List Char :=
  if isPrefixB tokenPat name || isPrefixB wtePat name then
    replaceAll wtePat tokenTgt (replaceAll tokenPat tokenTgt name)
  else name

/-- Lines 35-36 of convert_checkpoint.py: if the name starts with
"lm_head.", replace all occurrences of "lm_head." by "_lmHead.". -/
def lmHeadStep (name : List Char) : List Char :=
  if isPrefixB lmHeadPat name then replaceAll lmHeadPat lmHeadTgt name else name

/-- Lines 39-41 of convert_checkpoint.py: if "blocks." occurs in the name,
apply the regex substitution `blocks\.(\d+)` -> `block_\1`. -/
def blocksStep (name : List Char) : List Char :=
  if containsSub blocksPat name then blockSub 0 name else name

/-- Lines 44-58 of convert_checkpoint.py: the unconditional chain of
infix fragment replacements, applied in source order. -/
def applyFragmentRules (name : List Char) : List Char :=
  fragmentRules.foldl (fun n pr => replaceAll pr.1 pr.2 n) name

/-- Character-list core of `convert_parameter_name`
(convert_checkpoint.py lines 17-60). -/
def convName (k : List Char) : List Char :=
  applyFragmentRules (blocksStep (lmHeadStep (tokenEmbeddingStep k)))

/-- Function convert_parameter_name of convert_checkpoint.py lines 17-60. -/
def convert_parameter_name (s : String) : String :=
  ⟨convName s.data⟩

/-!
Model of the loaded checkpoint container. `torch.load` returns an
arbitrary Python object; the conversion script only distinguishes dicts
(whose values it treats opaquely except for nested dict shape), tensors,
and everything else. Tensor payloads are opaque handles.
-/

/-- A loaded Python object: an opaque tensor handle, a dict in insertion
order, or some other object carrying only its type name. -/
inductive PyObj where
  | tensor (id : Nat)
  | dict (entries : List (String × PyObj))
  | other (typeName : String)

/-- The `type(checkpoint)` name reported in the error message. -/
def pyTypeName : PyObj → String
  | PyObj.tensor _ => ("Tensor")
  | PyObj.dict _ => ("dict")
  | PyObj.other t => t

/-- The state-dict extraction of convert_checkpoint.py lines 79-90 for a
dict container: the entry under "model" if present, else the entry under
"state_dict" if present, else the whole dict. -/
def extract_state_dict (es : List (String × PyObj)) : PyObj :=
  match es.lookup ("model") with
  | some m => m
  | none =>
    match es.lookup ("state_dict") with
    | some m => m
    | none => PyObj.dict es

/-- Python dict insertion: overwriting an existing key keeps its position,
a new key is appended at the end. -/
def dictInsert (d : List (String × PyObj)) (k : String) (v : PyObj) :
    List (String × PyObj) :=
  if d.any (fun e => e.1 == k) then
    d.map (fun e => if e.1 == k then (k, v) else e)
  else d ++ [(k, v)]

/-- The conversion loop of convert_checkpoint.py lines 96-104: build
`converted_state_dict` by inserting each tensor under its converted name. -/
def convertEntries (items : List (String × PyObj)) : List (String × PyObj) :=
  items.foldl (fun acc e => dictInsert acc (convert_parameter_name e.1) e.2) []

/-- Number of keys the loop records in `conversions` (old name differs
from new name), convert_checkpoint.py lines 103-104. -/
def renamedCount (items : List (String × PyObj)) : Nat :=
  (items.filter (fun e => !(convert_parameter_name e.1 == e.1))).length

/-- Number of keys left unchanged by the rewrite. -/
def unchangedCount (items : List (String × PyObj)) : Nat :=
  (items.filter (fun e => convert_parameter_name e.1 == e.1)).length

/-- Observable outcome of one `convert_checkpoint` run: process exit
code, the saved converted dict (none when nothing was saved), the type
name reported by the "Unexpected checkpoint type" message, and the two
printed counts. -/
structure ConvResult where
  exitCode : Nat
  savedDict : Option (List (String × PyObj))
  reportedTypeName : Option String
  renamed : Nat
  total : Nat

/-- Function convert_checkpoint of convert_checkpoint.py lines 63-128, after a
successful load: a non-dict container prints its type and exits 1 saving
nothing; a dict container has its state dict extracted and, when that
state dict supports iteration over items (is a dict), converted and
saved; a non-dict state dict raises inside the loop and reaches the
generic exception handler, which exits 1 saving nothing. -/
def convert_checkpoint (checkpoint : PyObj) : ConvResult :=
  match checkpoint with
  | PyObj.dict es =>
    match extract_state_dict es with
    | PyObj.dict items =>
      { exitCode := 0
        savedDict := some (convertEntries items)
        reportedTypeName := none
        renamed := renamedCount items
        total := items.length }
    | _ =>
      { exitCode := 1, savedDict := none, reportedTypeName := none
        renamed := 0, total := 0 }
  | cp =>
    { exitCode := 1, savedDict := none
      reportedTypeName := some (pyTypeName cp), renamed := 0, total := 0 }

/-!
Model of the verification pipeline (verify_forward_pass.py). The external
tensor library's global random generator is a deterministic state
machine: `torch.manual_seed` replaces the global state by a function of
the seed alone, and each sampling call is a deterministic function of the
current state, returning the drawn values and the advanced state. The
concrete transition function below is a stand-in for the library's
documented deterministic CPU generator; every claim proved about it uses
only that it is a function. Global state is passed explicitly. -/

/-- One step of the modelled global generator (a 64-bit linear
congruential transition as stand-in for the external deterministic RNG). -/
def rngNext (s : Nat) : Nat :=
  (6364136223846793005 * s + 1442695040888963407) % 18446744073709551616

/-- Model of torch.manual_seed: the new global state depends on the seed only. -/
def torchManualSeed (seed : Nat) : Nat := seed % 18446744073709551616

/-- One integer draw uniform in `[lo, hi)` from state `s`. -/
def natDraw (lo hi s : Nat) : Nat := lo + s % (hi - lo)

/-- Model of torch.randint(lo, hi, (1, n)) flattened: `n` successive draws from
the global state, returning the values and the advanced state. -/
def torchRandint (lo hi : Nat) : Nat → Nat → List Nat × Nat
  | 0, g => ([], g)
  | n+1, g =>
    let rest := torchRandint lo hi n (rngNext g)
    (natDraw lo hi g :: rest.1, rest.2)

/-- Model of torch.randn with `n` elements flattened: `n` successive draws (each
value is the bit pattern of the sampled float, modelled as the state
itself) and the advanced state. -/
def torchRandn : Nat → Nat → List Nat × Nat
  | 0, g => ([], g)
  | n+1, g =>
    let rest := torchRandn n (rngNext g)
    (g :: rest.1, rest.2)

/-- A tensor as saved by the harness: shape and flattened payload. -/
structure PyTensor where
  shape : List Nat
  data : List Nat

/-- Function create_test_input of verify_forward_pass.py lines 43-49: seed the
global generator with `seed`, then draw a `(1, seq_len)` tensor of token
ids uniform in `[0, vocab_size)`. The incoming global state `g` is
overwritten by the explicit reseed; the advanced state is returned. -/
def create_test_input (seq_len vocab_size seed g : Nat) : PyTensor × Nat :=
  let g0 := torchManualSeed seed
  let draw := torchRandint 0 vocab_size seq_len g0
  (⟨[1, seq_len], draw.1⟩, draw.2)

/-- The two artifacts written by `save_tensors`: the test input under
test_input.pt and the placeholder logits under expected_output.pt. -/
structure VerifyOut where
  testInput : PyTensor
  expectedOutput : PyTensor

/-- Function verify_forward_pass of verify_forward_pass.py lines 71-117 after a
successful load: extract the state dict (checking only the "model" key;
the extracted value is never used afterwards), build the deterministic
test input with vocab_size 32768 and seed 42, draw the placeholder
logits of shape `(1, seq_len, 32768)` from the global generator, and
save both tensors. -/
def verify_forward_pass (checkpoint : PyObj) (seq_len g : Nat) :
    VerifyOut × Nat :=
  let state_dict :=
    match checkpoint with
    | PyObj.dict es =>
      match es.lookup ("model") with
      | some m => m
      | none => PyObj.dict es
    | cp => cp
  let vocab_size := 32768
  let inp := create_test_input seq_len vocab_size 42 g
  let outr := torchRandn (1 * seq_len * vocab_size) inp.2
  let _ := state_dict
  ({ testInput := inp.1
     expectedOutput := ⟨[1, seq_len, vocab_size], outr.1⟩ }, outr.2)

/-- Every source-side pattern of the rule set: the two token-embedding
prefix spellings, the lm_head prefix, the literal token of the indexed
block rule, and the eleven infix fragments. -/
def sourcePats : List (List Char) :=
  [tokenPat, wtePat, lmHeadPat, blocksPat] ++ fragmentRules.map Prod.fst

/-- A key matches no rule pattern: none of the source patterns occurs in
it as a substring. -/
def matchesNoRule (k : List Char) : Bool :=
  sourcePats.all (fun p => !(containsSub p k))

/-- Proper suffix "te." of the pattern "wte.". -/
def tePat : List Char := ['t','e','.']

/-- Proper suffix "e." of the pattern "wte.". -/
def eDotPat : List Char := ['e','.']

/-- Proper suffix "." of the pattern "wte.". -/
def dotPat : List Char := ['.']

/-!
Helper lemmas about the embedded string engine.
-/

/-- A prefix of a list is a substring of it. -/
theorem contains_of_isPrefixB (p s : List Char) (h : isPrefixB p s = true) :
    containsSub p s = true := by
  cases s with
  | nil =>
    cases p with
    | nil => rfl
    | cons a ps => simp [isPrefixB] at h
  | cons c cs => simp [containsSub, h]

/-- If the pattern occurs nowhere in the string, replacement is the
identity. -/
theorem replAux_id (p r : List Char) :
    ∀ s : List Char, containsSub p s = false → replAux p r 0 s = s := by
  intro s
  induction s with
  | nil => intro _; rfl
  | cons c cs ih =>
    intro h
    simp [containsSub] at h
    simp [replAux, h.1, ih h.2]

/-- Function replaceAll is the identity on strings not containing the pattern. -/
theorem replaceAll_id (p r s : List Char) (h : containsSub p s = false) :
    replaceAll p r s = s :=
  replAux_id p r s h

/-- A fold of replacements over patterns none of which occurs in the
string is the identity. -/
theorem foldl_replaceAll_id (rules : List (List Char × List Char)) :
    ∀ k : List Char, (∀ pr ∈ rules, containsSub pr.1 k = false) →
      rules.foldl (fun n pr => replaceAll pr.1 pr.2 n) k = k := by
  induction rules with
  | nil => intro k _; rfl
  | cons pr rest ih =>
    intro k h
    have h1 : replaceAll pr.1 pr.2 k = k := replaceAll_id _ _ _ (h pr (by simp))
    simp only [List.foldl_cons, h1]
    exact ih k (fun q hq => h q (by simp [hq]))

/-- Skipping `k` characters with the worker is dropping them. -/
theorem replAux_skip_drop (p r : List Char) :
    ∀ (u : List Char) (k : Nat), replAux p r k u = replAux p r 0 (u.drop k) := by
  intro u
  induction u with
  | nil => intro k; cases k <;> rfl
  | cons x u ih =>
    intro k
    cases k with
    | zero => rfl
    | succ k => simp only [replAux, List.drop_succ_cons]; exact ih k

/-- Unfolding `isPrefixB` for "wte." against a cons cell. -/
theorem isPrefixB_wte_cons (c : Char) (x : List Char) :
    isPrefixB wtePat (c :: x) = (('w' == c) && isPrefixB tePat x) := rfl

/-- Unfolding `isPrefixB` for "te." against a cons cell. -/
theorem isPrefixB_te_cons (c : Char) (x : List Char) :
    isPrefixB tePat (c :: x) = (('t' == c) && isPrefixB eDotPat x) := rfl

/-- Unfolding `isPrefixB` for "e." against a cons cell. -/
theorem isPrefixB_eDot_cons (c : Char) (x : List Char) :
    isPrefixB eDotPat (c :: x) = (('e' == c) && isPrefixB dotPat x) := rfl

/-- Unfolding `isPrefixB` for "." against a cons cell. -/
theorem isPrefixB_dot_cons (c : Char) (x : List Char) :
    isPrefixB dotPat (c :: x) = ('.' == c) := by
  simp [dotPat, isPrefixB]

/-- Prepending a character other than 'w' cannot create or destroy an
occurrence of "wte." . -/
theorem containsSub_wte_cons (c : Char) (T : List Char)
    (hc : ('w' == c) = false) :
    containsSub wtePat (c :: T) = containsSub wtePat T := by
  simp [containsSub, isPrefixB_wte_cons, hc]

/-- Prepending a block of characters none of which is 'w' cannot create
or destroy an occurrence of "wte." . -/
theorem containsSub_wte_append (r : List Char)
    (h : ∀ c ∈ r, ('w' == c) = false) :
    ∀ T : List Char, containsSub wtePat (r ++ T) = containsSub wtePat T := by
  induction r with
  | nil => intro T; rfl
  | cons c r ih =>
    intro T
    rw [List.cons_append, containsSub_wte_cons c _ (h c (by simp))]
    exact ih (fun d hd => h d (by simp [hd])) T

/-- Core of the token-embedding analysis: after replacing every
occurrence of "wte." by "_tokenEmbedding.", no occurrence of "wte."
remains; moreover the scan does not invent the proper suffixes "te.",
"e.", "." of the pattern at the head of its output. -/
theorem wte_gone_aux :
    ∀ (n : Nat) (s : List Char), s.length ≤ n →
      containsSub wtePat (replAux wtePat tokenTgt 0 s) = false ∧
      (isPrefixB tePat (replAux wtePat tokenTgt 0 s) = true →
        isPrefixB tePat s = true) ∧
      (isPrefixB eDotPat (replAux wtePat tokenTgt 0 s) = true →
        isPrefixB eDotPat s = true) ∧
      (isPrefixB dotPat (replAux wtePat tokenTgt 0 s) = true →
        isPrefixB dotPat s = true) := by
  intro n
  induction n with
  | zero =>
    intro s hs
    have hnil : s = [] := List.eq_nil_of_length_eq_zero (Nat.le_zero.mp hs)
    subst hnil
    exact ⟨rfl, fun h => h, fun h => h, fun h => h⟩
  | succ n ih =>
    intro s hs
    cases s with
    | nil => exact ⟨rfl, fun h => h, fun h => h, fun h => h⟩
    | cons c cs =>
      by_cases hm : isPrefixB wtePat (c :: cs) = true
      · -- a match at this position: emit the replacement, skip 3 chars
        have hrw : replAux wtePat tokenTgt 0 (c :: cs)
            = tokenTgt ++ replAux wtePat tokenTgt 0 (cs.drop 3) := by
          rw [show replAux wtePat tokenTgt 0 (c :: cs)
              = tokenTgt ++ replAux wtePat tokenTgt (wtePat.length - 1) cs by
            simp [replAux, hm]]
          rw [replAux_skip_drop]
          rfl
        have hlen : (cs.drop 3).length ≤ n := by
          have h1 := List.length_drop 3 cs
          have h2 : cs.length + 1 ≤ n + 1 := by simpa using hs
          omega
        obtain ⟨h1, -, -, -⟩ := ih (cs.drop 3) hlen
        have hall : ∀ ch ∈ tokenTgt, ('w' == ch) = false := by decide
        refine ⟨?_, ?_, ?_, ?_⟩
        · rw [hrw, containsSub_wte_append tokenTgt hall, h1]
        · rw [hrw]; intro h; exact absurd h (by simp [tokenTgt, tePat, isPrefixB])
        · rw [hrw]; intro h; exact absurd h (by simp [tokenTgt, eDotPat, isPrefixB])
        · rw [hrw]; intro h; exact absurd h (by simp [tokenTgt, dotPat, isPrefixB])
      · -- no match at this position: the character is kept
        simp only [Bool.not_eq_true] at hm
        have hrw : replAux wtePat tokenTgt 0 (c :: cs)
            = c :: replAux wtePat tokenTgt 0 cs := by
          simp [replAux, hm]
        have hcs : cs.length ≤ n := by
          have : cs.length + 1 ≤ n + 1 := by simpa using hs
          omega
        obtain ⟨ih1, ih2, ih3, ih4⟩ := ih cs hcs
        have hhead : isPrefixB wtePat (c :: replAux wtePat tokenTgt 0 cs) = false := by
          rw [isPrefixB_wte_cons]
          cases hw : ('w' == c) with
          | false => simp
          | true =>
            cases ht : isPrefixB tePat (replAux wtePat tokenTgt 0 cs) with
            | false => simp
            | true =>
              exfalso
              have : isPrefixB wtePat (c :: cs) = true := by
                rw [isPrefixB_wte_cons, hw, ih2 ht]; rfl
              rw [this] at hm; exact Bool.noConfusion hm
        refine ⟨?_, ?_, ?_, ?_⟩
        · rw [hrw]; simp [containsSub, hhead, ih1]
        · rw [hrw, isPrefixB_te_cons, isPrefixB_te_cons]
          intro h
          rw [Bool.and_eq_true] at h
          rw [h.1, ih3 h.2]; rfl
        · rw [hrw, isPrefixB_eDot_cons, isPrefixB_eDot_cons]
          intro h
          rw [Bool.and_eq_true] at h
          rw [h.1, ih4 h.2]; rfl
        · rw [hrw, isPrefixB_dot_cons, isPrefixB_dot_cons]
          exact fun h => h

/-- Replacing every occurrence of "wte." by "_tokenEmbedding." leaves a
string with no occurrence of "wte." at all. -/
theorem wte_gone (s : List Char) :
    containsSub wtePat (replaceAll wtePat tokenTgt s) = false :=
  (wte_gone_aux s.length s le_rfl).1

/-- The indexed-block substitution is the identity on any string that
does not contain the literal token "blocks." . -/
theorem blockSub_id :
    ∀ s : List Char, containsSub blocksPat s = false → blockSub 0 s = s := by
  intro s
  induction s with
  | nil => intro _; rfl
  | cons c cs ih =>
    intro h
    simp [containsSub] at h
    simp [blockSub, h.1, ih h.2]

/-- Splitting a filtered length by a Boolean predicate and its negation. -/
theorem length_filter_partition {α : Type} (p : α → Bool) (l : List α) :
    (l.filter p).length + (l.filter (fun a => !(p a))).length = l.length := by
  induction l with
  | nil => rfl
  | cons a l ih =>
    cases h : p a <;> simp [List.filter, h, ← ih] <;> omega

/-- One dict insertion grows the dict by at most one entry. -/
theorem dictInsert_length_le (d : List (String × PyObj)) (k : String)
    (v : PyObj) : (dictInsert d k v).length ≤ d.length + 1 := by
  unfold dictInsert
  by_cases h : d.any (fun e => e.1 == k) = true
  · rw [if_pos h]; simp only [List.length_map]; exact Nat.le_succ _
  · rw [if_neg h]; simp

/-- Dict insertion preserves key uniqueness. -/
theorem dictInsert_keys_nodup (d : List (String × PyObj)) (k : String)
    (v : PyObj) (h : (d.map Prod.fst).Nodup) :
    ((dictInsert d k v).map Prod.fst).Nodup := by
  unfold dictInsert
  by_cases hmem : d.any (fun e => e.1 == k) = true
  · rw [if_pos hmem]
    have hkeys : (d.map (fun e => if e.1 == k then (k, v) else e)).map Prod.fst
        = d.map Prod.fst := by
      rw [List.map_map]
      apply List.map_congr_left
      intro e _
      by_cases hek : (e.1 == k) = true
      · simp only [Function.comp_apply, if_pos hek]
        exact (eq_of_beq hek).symm
      · simp only [Function.comp_apply, if_neg hek]
    rw [hkeys]; exact h
  · rw [if_neg hmem]
    have hk : k ∉ d.map Prod.fst := by
      intro hkmem
      apply hmem
      rw [List.any_eq_true]
      rcases List.mem_map.mp hkmem with ⟨e, he, hfst⟩
      exact ⟨e, he, by simp [hfst]⟩
    rw [List.map_append]
    refine List.Nodup.append h (List.nodup_singleton k) ?_
    intro a ha hb
    simp only [List.map_cons, List.map_nil, List.mem_singleton] at hb
    subst hb
    exact hk ha

/-- Folding dict insertions adds at most one entry per processed item. -/
theorem foldl_dictInsert_length (f : String → String) :
    ∀ (items acc : List (String × PyObj)),
      (items.foldl (fun a e => dictInsert a (f e.1) e.2) acc).length
        ≤ acc.length + items.length := by
  intro items
  induction items with
  | nil => intro acc; simp
  | cons e rest ih =>
    intro acc
    simp only [List.foldl_cons, List.length_cons]
    have h1 := ih (dictInsert acc (f e.1) e.2)
    have h2 := dictInsert_length_le acc (f e.1) e.2
    omega

/-- Folding dict insertions keeps the key list duplicate-free. -/
theorem foldl_dictInsert_nodup (f : String → String) :
    ∀ (items acc : List (String × PyObj)),
      (acc.map Prod.fst).Nodup →
      ((items.foldl (fun a e => dictInsert a (f e.1) e.2) acc).map
        Prod.fst).Nodup := by
  intro items
  induction items with
  | nil => intro acc h; simpa using h
  | cons e rest ih =>
    intro acc h
    simp only [List.foldl_cons]
    exact ih _ (dictInsert_keys_nodup _ _ _ h)

/-- Projection of the string constructor. -/
theorem String_data_mk (l : List Char) : (String.mk l).data = l := rfl

/-- Unfolding the string wrapper of the rewrite. -/
theorem convert_parameter_name_data (s : String) :
    (convert_parameter_name s).data = convName s.data :=
  String_data_mk (convName s.data)

/-- The test-input tensor does not depend on the incoming generator
state, since `create_test_input` reseeds before drawing. -/
theorem create_test_input_state_independent (a b c d e : Nat) :
    (create_test_input a b c d).1 = (create_test_input a b c e).1 := rfl

/-- A key matching no rule pattern is a fixpoint of the whole rewrite. -/
theorem convName_fixed (k : List Char) (h : matchesNoRule k = true) :
    convName k = k := by
  simp only [matchesNoRule, sourcePats, fragmentRules, List.all_append,
    List.all_cons, List.all_nil, List.map_cons, List.map_nil,
    Bool.and_eq_true, Bool.not_eq_true'] at h
  obtain ⟨⟨htok, hwte, hlm, hblk, -⟩, hfrag⟩ := h
  have hptok : isPrefixB tokenPat k = false := by
    cases hp : isPrefixB tokenPat k
    · rfl
    · rw [contains_of_isPrefixB _ _ hp] at htok; simp at htok
  have hpwte : isPrefixB wtePat k = false := by
    cases hp : isPrefixB wtePat k
    · rfl
    · rw [contains_of_isPrefixB _ _ hp] at hwte; simp at hwte
  have hplm : isPrefixB lmHeadPat k = false := by
    cases hp : isPrefixB lmHeadPat k
    · rfl
    · rw [contains_of_isPrefixB _ _ hp] at hlm; simp at hlm
  have s1 : tokenEmbeddingStep k = k := by
    simp [tokenEmbeddingStep, hptok, hpwte]
  have s2 : lmHeadStep k = k := by simp [lmHeadStep, hplm]
  have s3 : blocksStep k = k := by simp [blocksStep, hblk]
  have s4 : applyFragmentRules k = k := by
    apply foldl_replaceAll_id
    intro pr hpr
    simp only [fragmentRules, List.mem_cons, List.not_mem_nil, or_false] at hpr
    rcases hpr with h|h|h|h|h|h|h|h|h|h|h <;> subst h <;> tauto
  simp [convName, s1, s2, s3, s4]

/-!
Claim theorems.
-/

/-- Claim C4: the rewrite scenario of the spec. "wte.weight" maps to
"_tokenEmbedding.weight", "blocks.12.attn.q_proj.weight" maps to
"block_12._attn._qProj.weight", "lm_head.weight" maps to
"_lmHead.weight", and "transformer.ln_f.weight" is left unchanged. -/
theorem convert_scenario_keys :
    convert_parameter_name ("wte.weight") = ("_tokenEmbedding.weight") ∧
    convert_parameter_name ("blocks.12.attn.q_proj.weight")
      = ("block_12._attn._qProj.weight") ∧
    convert_parameter_name ("lm_head.weight") = ("_lmHead.weight") ∧
    convert_parameter_name ("transformer.ln_f.weight")
      = ("transformer.ln_f.weight") := by
  decide

/-- Claim C1, counterexample: the rewrite is not idempotent as claimed.
On the key ".attn.attn." the first application rewrites only the first of
the two overlapping ".attn." occurrences (the replace scan resumes after
a match), and the second application then rewrites the survivor, so
applying the rule set twice differs from applying it once. -/
theorem convert_not_idempotent :
    convert_parameter_name (convert_parameter_name (".attn.attn."))
      ≠ convert_parameter_name (".attn.attn.") := by
  decide

/-- Claim C1, amended: the rewrite is idempotent on every key whose
rewritten form matches no rule pattern (no occurrence of
"token_embedding.", "wte.", "lm_head.", "blocks.", or any of the eleven
infix fragments); for such keys re-applying the full rule set is a
no-op. -/
theorem convert_idempotent_on_settled (k : String)
    (h : matchesNoRule (convert_parameter_name k).data = true) :
    convert_parameter_name (convert_parameter_name k)
      = convert_parameter_name k := by
  apply String.ext
  rw [convert_parameter_name_data (convert_parameter_name k)]
  exact convName_fixed _ h

/-- Witness for the amended Claim C1 at the key "wte.weight". -/
theorem convert_idempotent_on_settled_witness :
    matchesNoRule (convert_parameter_name ("wte.weight")).data = true ∧
    convert_parameter_name (convert_parameter_name ("wte.weight"))
      = convert_parameter_name ("wte.weight") :=
  ⟨by decide, convert_idempotent_on_settled _ (by decide)⟩

/-- Claim C2, counterexample: the rewrite can collide two distinct keys.
The input dict with the two distinct keys ".attn.x" and "._attn.x" is
converted to a dict with the single key "._attn.x", so the rewritten
collection has fewer unique keys than the input. -/
theorem convert_introduces_collision :
    (([((".attn.x"), PyObj.tensor 0), (("._attn.x"), PyObj.tensor 1)].map
        Prod.fst).Nodup) ∧
    ((convertEntries [((".attn.x"), PyObj.tensor 0),
        (("._attn.x"), PyObj.tensor 1)]).map Prod.fst = [("._attn.x")]) ∧
    (convertEntries [((".attn.x"), PyObj.tensor 0),
        (("._attn.x"), PyObj.tensor 1)]).length ≠ 2 := by
  decide

/-- Claim C2, amended: for an input collection with K unique keys the
renamed count plus the unchanged count equals K, and the rewritten
collection has at most K unique keys (its key list stays duplicate-free
as a dict, but distinct original keys may collide, so exactly K is not
guaranteed). -/
theorem convert_counts_conservation (items : List (String × PyObj))
    (h : (items.map Prod.fst).Nodup) :
    renamedCount items + unchangedCount items = items.length ∧
    ((convertEntries items).map Prod.fst).Nodup ∧
    (convertEntries items).length ≤ items.length := by
  refine ⟨?_, ?_, ?_⟩
  · have hp := length_filter_partition
      (fun e : String × PyObj => !(convert_parameter_name e.1 == e.1)) items
    have hfun : (fun a : String × PyObj =>
        !(!(convert_parameter_name a.1 == a.1)))
        = (fun a : String × PyObj => (convert_parameter_name a.1 == a.1)) :=
      funext (fun a => Bool.not_not _)
    rw [hfun] at hp
    exact hp
  · exact foldl_dictInsert_nodup convert_parameter_name items [] (by simp)
  · simpa using foldl_dictInsert_length convert_parameter_name items []

/-- Witness for the amended Claim C2 at a one-key collection. -/
theorem convert_counts_conservation_witness :
    (([(("wte.weight"), PyObj.tensor 0)].map Prod.fst).Nodup) ∧
    (renamedCount [(("wte.weight"), PyObj.tensor 0)]
        + unchangedCount [(("wte.weight"), PyObj.tensor 0)] = 1 ∧
      ((convertEntries [(("wte.weight"), PyObj.tensor 0)]).map
        Prod.fst).Nodup ∧
      (convertEntries [(("wte.weight"), PyObj.tensor 0)]).length ≤ 1) :=
  ⟨by decide, convert_counts_conservation _ (by decide)⟩

/-- Claim C3: the fixture generator is deterministic. The output tensor
of `create_test_input` depends only on (seq_len, vocab_size, seed) and
not on the incoming global generator state, because the generator is
explicitly reseeded first; in particular two successive calls with
(16, 32768, 42) yield equal tensors. -/
theorem create_test_input_deterministic :
    (∀ seqLen vocabSize seed g g' : Nat,
      (create_test_input seqLen vocabSize seed g).1
        = (create_test_input seqLen vocabSize seed g').1) ∧
    (∀ g0 : Nat,
      (create_test_input 16 32768 42 (create_test_input 16 32768 42 g0).2).1
        = (create_test_input 16 32768 42 g0).1) :=
  ⟨fun a b c d e => create_test_input_state_independent a b c d e,
   fun g0 => create_test_input_state_independent 16 32768 42
     (create_test_input 16 32768 42 g0).2 g0⟩

/-- Claim C5: container shape selection is ordered. The "model" entry is
checked first, then "state_dict", and otherwise the whole mapping is the
state dict, first match winning; a container holding both "model" and
"optimizer" entries is extracted via the "model" branch. -/
theorem extract_ordered_selection :
    (∀ (es : List (String × PyObj)) (m : PyObj),
        es.lookup ("model") = some m → extract_state_dict es = m) ∧
    (∀ (es : List (String × PyObj)) (m : PyObj),
        es.lookup ("model") = none → es.lookup ("state_dict") = some m →
        extract_state_dict es = m) ∧
    (∀ es : List (String × PyObj),
        es.lookup ("model") = none → es.lookup ("state_dict") = none →
        extract_state_dict es = PyObj.dict es) ∧
    (∀ m o : PyObj,
        extract_state_dict [(("model"), m), (("optimizer"), o)] = m) := by
  refine ⟨?_, ?_, ?_, ?_⟩
  · intro es m h; simp [extract_state_dict, h]
  · intro es m h1 h2; simp [extract_state_dict, h1, h2]
  · intro es h1 h2; simp [extract_state_dict, h1, h2]
  · intro m o; rfl

/-- Witness for Claim C5 at a container holding "model" and "optimizer". -/
theorem extract_ordered_selection_witness :
    ([(("model"), PyObj.tensor 0), (("optimizer"), PyObj.tensor 1)].lookup
        ("model") = some (PyObj.tensor 0)) ∧
    extract_state_dict [(("model"), PyObj.tensor 0),
        (("optimizer"), PyObj.tensor 1)] = PyObj.tensor 0 :=
  ⟨rfl, extract_ordered_selection.1 _ _ rfl⟩

/-- Claim C6: the indexed-block rule fires only on the exact "blocks."
token boundary. The key "blocksomething.3.x" passes through the whole
rewrite unchanged and its image does not contain "block_3"; in general
the block substitution is the identity on any string not containing the
literal token "blocks.". -/
theorem block_rule_exact_token :
    convert_parameter_name ("blocksomething.3.x") = ("blocksomething.3.x") ∧
    containsSub ("block_3").data
      (convert_parameter_name ("blocksomething.3.x")).data = false ∧
    (∀ s : List Char, containsSub blocksPat s = false → blockSub 0 s = s) :=
  ⟨by decide, by decide, blockSub_id⟩

/-- Witness for Claim C6's general part at "blocksomething.3.x". -/
theorem block_rule_exact_token_witness :
    containsSub blocksPat ("blocksomething.3.x").data = false ∧
    blockSub 0 ("blocksomething.3.x").data = ("blocksomething.3.x").data :=
  ⟨by decide, block_rule_exact_token.2.2 _ (by decide)⟩

/-- Claim C7: a non-mapping checkpoint container is fatal. For a tensor
container and for any other non-dict container, conversion exits with
code 1, saves no output checkpoint, and reports the observed type name. -/
theorem nonmapping_container_fatal :
    (∀ n : Nat,
      (convert_checkpoint (PyObj.tensor n)).exitCode = 1 ∧
      (convert_checkpoint (PyObj.tensor n)).savedDict = none ∧
      (convert_checkpoint (PyObj.tensor n)).reportedTypeName
        = some (pyTypeName (PyObj.tensor n))) ∧
    (∀ t : String,
      (convert_checkpoint (PyObj.other t)).exitCode = 1 ∧
      (convert_checkpoint (PyObj.other t)).savedDict = none ∧
      (convert_checkpoint (PyObj.other t)).reportedTypeName
        = some (pyTypeName (PyObj.other t))) :=
  ⟨fun _ => ⟨rfl, rfl, rfl⟩, fun _ => ⟨rfl, rfl, rfl⟩⟩

/-- Claim C8: the saved test input is independent of the checkpoint.
For any two loaded checkpoints, any sequence length, and any two incoming
generator states, `verify_forward_pass` produces the identical
test_input tensor — the extracted state dict never feeds the fixture. -/
theorem test_input_checkpoint_independent :
    ∀ (cp1 cp2 : PyObj) (seqLen g g' : Nat),
      (verify_forward_pass cp1 seqLen g).1.testInput
        = (verify_forward_pass cp2 seqLen g').1.testInput :=
  fun _ _ _ _ _ => rfl

/-- Claim C9: the token-embedding rule is not a pure prefix rewrite. Both
occurrences in "wte.wte.x", a non-leading occurrence in "wte.a.wte.b",
and both occurrences in "token_embedding.a.token_embedding.b" are
replaced, the pure-prefix result "_tokenEmbedding.wte.x" is not produced,
and in general the "wte." replacement pass leaves no occurrence of
"wte." anywhere in its output. -/
theorem token_embedding_all_occurrences :
    convert_parameter_name ("wte.wte.x")
      = ("_tokenEmbedding._tokenEmbedding.x") ∧
    convert_parameter_name ("wte.a.wte.b")
      = ("_tokenEmbedding.a._tokenEmbedding.b") ∧
    convert_parameter_name ("token_embedding.a.token_embedding.b")
      = ("_tokenEmbedding.a._tokenEmbedding.b") ∧
    convert_parameter_name ("wte.wte.x") ≠ ("_tokenEmbedding.wte.x") ∧
    (∀ s : List Char,
      containsSub wtePat (replaceAll wtePat tokenTgt s) = false) :=
  ⟨by decide, by decide, by decide, by decide, wte_gone⟩

/-- Claim C10: the placeholder logits are deterministic as well. The
expected_output tensor written by `verify_forward_pass` is a function of
the sequence length alone (with seed 42 and vocab_size 32768 fixed by the
code): it does not depend on the checkpoint or on the incoming global
generator state, because the logits are drawn from the generator state
reached right after the seeded test-input draw. -/
theorem expected_output_deterministic :
    ∀ (cp1 cp2 : PyObj) (seqLen g g' : Nat),
      (verify_forward_pass cp1 seqLen g).1.expectedOutput
        = (verify_forward_pass cp2 seqLen g').1.expectedOutput :=
  fun _ _ _ _ _ => rfl

/-- Sanity check: the embedded pattern constants spell exactly the string
literals of convert_checkpoint.py. -/
theorem pattern_constants_spelled_correctly :
    tokenPat = ("token_embedding.").data ∧ wtePat = ("wte.").data ∧
    tokenTgt = ("_tokenEmbedding.").data ∧ lmHeadPat = ("lm_head.").data ∧
    lmHeadTgt = ("_lmHead.").data ∧ blocksPat = ("blocks.").data ∧
    blockTgt = ("block_").data ∧
    fragmentRules =
      [ ((".attn.").data, ("._attn.").data)
      , ((".q_proj.").data, ("._qProj.").data)
      , ((".k_proj.").data, ("._kProj.").data)
      , ((".v_proj.").data, ("._vProj.").data)
      , ((".out_proj.").data, ("._outProj.").data)
      , ((".mlp.").data, ("._mlp.").data)
      , ((".fc1.").data, ("._fc1.").data)
      , ((".fc2.").data, ("._fc2.").data)
      , ((".norm1.").data, ("._norm1.").data)
      , ((".norm2.").data, ("._norm2.").data)
      , ((".final_norm.").data, ("._finalNorm.").data) ] := by
  decide
